import Mathlib

/-!
Shallow embedding of the camera viewpoint navigation and transition engine
of `src/src/App.jsx` (and its earlier variant `src/unnamed/part_000`).
Coordinates and times are modelled as rationals (JS numbers on the inputs
appearing here are exact), and the mutable animation state of the closure
`animateToViewpoint` is made explicit as a `TransitionState` record.
-/

/-- A 3-component vector, as THREE.Vector3 is used by the app. -/
structure Vec3 where
  x : ℚ
  y : ℚ
  z : ℚ
deriving DecidableEq, Repr

/-- THREE.Vector3.lerpVectors: componentwise a + (b - a) * t. -/
def lerpVectors (a b : Vec3) (t : ℚ) : Vec3 :=
  { x := a.x + (b.x - a.x) * t
  , y := a.y + (b.y - a.y) * t
  , z := a.z + (b.z - a.z) * t }

/-- Camera placement: position plus look-at target (camera.position / controls.target). -/
structure Pose where
  position : Vec3
  lookAt : Vec3
deriving DecidableEq, Repr

/-- A catalog entry as in the `viewpoints` array of App.jsx. -/
structure Viewpoint where
  pose : Pose
  name : String
deriving DecidableEq, Repr

/-- The `viewpoints` array of `src/src/App.jsx` (six entries). -/
def viewpoints : List Viewpoint :=
  [ { pose := { position := { x := 52, y := -7, z := 5 }, lookAt := { x := 43, y := -3, z := 16 } }
    , name := "City Overview" }
  , { pose := { position := { x := 59, y := -8, z := -9 }, lookAt := { x := 59, y := 4, z := -40 } }
    , name := "Tall Building" }
  , { pose := { position := { x := -10, y := 2, z := 5 }, lookAt := { x := 0, y := 2, z := 0 } }
    , name := "Street Level" }
  , { pose := { position := { x := 15, y := 8, z := -10 }, lookAt := { x := 0, y := 5, z := 0 } }
    , name := "Corner View" }
  , { pose := { position := { x := 0, y := 5, z := 15 }, lookAt := { x := 0, y := 0, z := 0 } }
    , name := "Central Plaza" }
  , { pose := { position := { x := -15, y := 12, z := 0 }, lookAt := { x := 0, y := 5, z := 0 } }
    , name := "Side Angle" } ]

/-- viewpoints.length in the source. -/
def catalogLength : ℤ := viewpoints.length

/-- Lookup `viewpoints[i]`; every use in the embedded code paths is in range. -/
def getViewpoint (i : ℤ) : Viewpoint :=
  viewpoints.getD i.toNat
    { pose := { position := { x := 0, y := 0, z := 0 }, lookAt := { x := 0, y := 0, z := 0 } }
    , name := "" }

/-- The ease-in-out cubic of the tick:
`progress < 0.5 ? 2 * progress * progress : 1 - Math.pow(-2 * progress + 2, 3) / 2`. -/
def easeInOut (progress : ℚ) : ℚ :=
  if progress < 1 / 2 then 2 * progress * progress
  else 1 - (-2 * progress + 2) ^ 3 / 2

/-- The mutable state captured by the `animateToViewpoint` closure:
`isAnimating`, plus the per-transition values recorded on an accepted start.
`isEditing` mirrors `isEditingRef.current` in App.jsx. -/
structure TransitionState where
  isAnimating : Bool
  isEditing : Bool
  startPose : Pose
  targetPose : Pose
  startTime : ℚ
  duration : ℚ
deriving DecidableEq, Repr

/-- The default `duration = 2000` of `animateToViewpoint`. -/
def defaultDuration : ℚ := 2000

/-- `animateToViewpoint(targetPosition, targetLookAt, duration)` at time `now`
with live camera pose `camera`: `if (isAnimating) return;` otherwise record the
start pose, target pose and start time and set the flags. -/
def animateToViewpoint (s : TransitionState) (camera : Pose)
    (targetPosition targetLookAt : Vec3) (duration now : ℚ) : TransitionState :=
  if s.isAnimating then s
  else
    { isAnimating := true
    , isEditing := true
    , startPose := camera
    , targetPose := { position := targetPosition, lookAt := targetLookAt }
    , startTime := now
    , duration := duration }

/-- The pose written to camera.position / controls.target by one run of the
inner `animate` callback at time `now`. -/
def tickPose (s : TransitionState) (now : ℚ) : Pose :=
  let elapsed := now - s.startTime
  let progress := min (elapsed / s.duration) 1
  let e := easeInOut progress
  { position := lerpVectors s.startPose.position s.targetPose.position e
  , lookAt := lerpVectors s.startPose.lookAt s.targetPose.lookAt e }

/-- The state update of one run of the inner `animate` callback at time `now`:
`if (progress < 1) requestAnimationFrame(animate) else { isAnimating = false; ... }`. -/
def tickState (s : TransitionState) (now : ℚ) : TransitionState :=
  let elapsed := now - s.startTime
  let progress := min (elapsed / s.duration) 1
  if progress < 1 then s
  else { s with isAnimating := false, isEditing := false }

/-- The navigation state: `currentViewpoint` (a JS integer), the live camera
pose, and the transition controller state. -/
structure NavState where
  currentViewpoint : ℤ
  cameraPose : Pose
  trans : TransitionState
deriving DecidableEq, Repr

/-- The index computed by the debounced wheel handler:
`event.deltaY > 0 ? (prev + 1) % viewpoints.length : (prev - 1 + viewpoints.length) % viewpoints.length`.
JS `%` is truncated remainder, i.e. `Int.tmod`. -/
def wheelNextIndex (deltaY : ℚ) (prev : ℤ) : ℤ :=
  if deltaY > 0 then Int.tmod (prev + 1) catalogLength
  else Int.tmod (prev - 1 + catalogLength) catalogLength

/-- The catalog successor `(i + 1) % length` (the `deltaY > 0` branch). -/
def nextIndex (i : ℤ) : ℤ := Int.tmod (i + 1) catalogLength

/-- The catalog predecessor `(i - 1 + length) % length` (the `deltaY <= 0` branch). -/
def prevIndex (i : ℤ) : ℤ := Int.tmod (i - 1 + catalogLength) catalogLength

/-- What runs when the debounce timer of the wheel handler fires at time `now`:
the `setCurrentViewpoint` updater computes the new index, calls
`setViewpoint(next)` (which calls `animateToViewpoint` with the default
duration), and returns the new index. -/
def handleWheelFire (sys : NavState) (deltaY : ℚ) (now : ℚ) : NavState :=
  let next := wheelNextIndex deltaY sys.currentViewpoint
  let vp := getViewpoint next
  { sys with
    currentViewpoint := next
  , trans := animateToViewpoint sys.trans sys.cameraPose
      vp.pose.position vp.pose.lookAt defaultDuration now }

/-- `window.setCustomViewpoint(pos, look)`: calls `animateToViewpoint` with the
default duration; `currentViewpoint` is not touched. -/
def setCustomViewpoint (sys : NavState) (pos look : Vec3) (now : ℚ) : NavState :=
  { sys with
    trans := animateToViewpoint sys.trans sys.cameraPose pos look defaultDuration now }

/-- One animation tick applied at system level: writes the interpolated pose to
the live camera and updates the controller state. -/
def frameTick (sys : NavState) (now : ℚ) : NavState :=
  { sys with cameraPose := tickPose sys.trans now, trans := tickState sys.trans now }

/-- A navigation intent direction: Next (scroll down) or Prev (scroll up). -/
inductive Dir where
  | next
  | prev
deriving DecidableEq, Repr

/-- The direction the fired wheel handler navigates in:
`event.deltaY > 0` chooses Next, anything else chooses Prev. -/
def dirOfDelta (deltaY : ℚ) : Dir :=
  if deltaY > 0 then Dir.next else Dir.prev

/-- A raw wheel event: arrival time (ms) and signed `deltaY`. -/
structure WheelEvent where
  time : ℚ
  deltaY : ℚ
deriving DecidableEq, Repr

/-- The `clearTimeout(scrollTimeout); scrollTimeout = setTimeout(..., 100)`
debouncer of the wheel handler, run over a time-ordered list of events.
The accumulator is the pending timer, `some (deadline, deltaY)` of the last
event. A pending timer fires (emitting `(deadline, deltaY)`) only when its
deadline is reached before the next event arrives; otherwise the next event
cancels it and arms a fresh timer. Any timer still pending after the last
event eventually fires. -/
def debounceRun (d : ℚ) : Option (ℚ × ℚ) → List WheelEvent → List (ℚ × ℚ)
  | some p, [] => [p]
  | none, [] => []
  | some p, e :: rest =>
    if p.1 ≤ e.time then p :: debounceRun d (some (e.time + d, e.deltaY)) rest
    else debounceRun d (some (e.time + d, e.deltaY)) rest
  | none, e :: rest => debounceRun d (some (e.time + d, e.deltaY)) rest

/-- The navigation intents the debounced wheel handler emits for a list of
events: each fired timer turns into `(fire time, direction of its delta)`. -/
def debounceIntents (d : ℚ) (evs : List WheelEvent) : List (ℚ × Dir) :=
  (debounceRun d none evs).map (fun p => (p.1, dirOfDelta p.2))

/-- Checks that each event of the list arrives strictly within `d` ms of the
previous one (a single burst for a `d`-ms debouncer). -/
def withinDebounce (d : ℚ) : List WheelEvent → Bool
  | a :: b :: rest => (decide (b.time < a.time + d)) && withinDebounce d (b :: rest)
  | _ => true

/-- The startup state: `useState(0)` for the index, the camera position and
controls target set directly from `viewpoints[0]`, and `isAnimating = false`. -/
def initState : NavState :=
  { currentViewpoint := 0
  , cameraPose := (getViewpoint 0).pose
  , trans :=
    { isAnimating := false
    , isEditing := false
    , startPose := (getViewpoint 0).pose
    , targetPose := (getViewpoint 0).pose
    , startTime := 0
    , duration := defaultDuration } }

/-- One step of the spec scenario for the wrap-around invariant: a Next
request (`deltaY = 1`) at time `t` followed by a frame at `t + 2000` that
completes the transition. -/
def advanceAndComplete (sys : NavState) (t : ℚ) : NavState :=
  frameTick (handleWheelFire sys 1 t) (t + defaultDuration)

/-- Five consecutive completed Next advances from the startup state. -/
def fiveAdvances : NavState :=
  advanceAndComplete (advanceAndComplete (advanceAndComplete
    (advanceAndComplete (advanceAndComplete initState 0) 2000) 4000) 6000) 8000

/-- The last event of a burst: the head `a` if no later event follows. -/
def lastEvent : WheelEvent → List WheelEvent → WheelEvent
  | a, [] => a
  | _, b :: rest => lastEvent b rest

/-- Interpolating with parameter 0 returns the first endpoint exactly. -/
theorem lerpVectors_zero (a b : Vec3) : lerpVectors a b 0 = a := by
  cases a
  simp [lerpVectors]

/-- Interpolating with parameter 1 returns the second endpoint exactly. -/
theorem lerpVectors_one (a b : Vec3) : lerpVectors a b 1 = b := by
  cases a
  cases b
  simp only [lerpVectors, Vec3.mk.injEq]
  refine ⟨by ring, by ring, by ring⟩

/-- The ease curve starts at 0. -/
theorem easeInOut_zero : easeInOut 0 = 0 := by
  norm_num [easeInOut]

/-- The ease curve ends at 1. -/
theorem easeInOut_one : easeInOut 1 = 1 := by
  norm_num [easeInOut]

/-- The ease curve passes through the midpoint. -/
theorem easeInOut_half : easeInOut (1 / 2) = 1 / 2 := by
  norm_num [easeInOut]

/-- Claim C1: while a transition is active, a further call to
`animateToViewpoint` is a no-op: the state (active flag, recorded start pose,
target pose, start time, duration) is returned unchanged, so the in-flight
transition keeps its original target — single-flight, not queued. -/
theorem single_flight_start_noop (s : TransitionState) (camera : Pose)
    (tp tl : Vec3) (dur now : ℚ) (h : s.isAnimating = true) :
    animateToViewpoint s camera tp tl dur now = s := by
  simp [animateToViewpoint, h]

/-- Witness for C1 at a concrete active transition state. -/
theorem single_flight_start_noop_witness :
    animateToViewpoint
      (TransitionState.mk true true (getViewpoint 0).pose (getViewpoint 1).pose 0 2000)
      (getViewpoint 2).pose (getViewpoint 3).pose.position (getViewpoint 3).pose.lookAt 2000 500
      = TransitionState.mk true true (getViewpoint 0).pose (getViewpoint 1).pose 0 2000 :=
  single_flight_start_noop _ _ _ _ _ _ rfl

/-- Claim C2: a transition started from camera pose `camera` toward target
`(tp, tl)` with duration `d > 0` ticks to exactly the start pose at elapsed
time 0, and at any elapsed time at least `d` the clamped progress is 1, the
tick yields exactly the target pose, and the tick clears the active flag. -/
theorem tick_hits_endpoints (s0 : TransitionState) (h0 : s0.isAnimating = false)
    (camera : Pose) (tp tl : Vec3) (d t0 now : ℚ) (hd : 0 < d) (hnow : t0 + d ≤ now) :
    tickPose (animateToViewpoint s0 camera tp tl d t0) t0 = camera ∧
    tickPose (animateToViewpoint s0 camera tp tl d t0) now = Pose.mk tp tl ∧
    (tickState (animateToViewpoint s0 camera tp tl d t0) now).isAnimating = false := by
  have hstart : animateToViewpoint s0 camera tp tl d t0
      = TransitionState.mk true true camera (Pose.mk tp tl) t0 d := by
    simp [animateToViewpoint, h0]
  have hm1 : min ((now - t0) / d) 1 = 1 := by
    apply min_eq_right
    rw [le_div_iff₀ hd]
    linarith
  rw [hstart]
  refine ⟨?_, ?_, ?_⟩
  · have hm0 : min ((t0 - t0) / d) 1 = 0 := by
      rw [sub_self, zero_div]
      exact min_eq_left zero_le_one
    cases camera
    simp [tickPose, hm0, easeInOut_zero, lerpVectors_zero]
  · simp [tickPose, hm1, easeInOut_one, lerpVectors_one]
  · simp [tickState, hm1]

/-- Witness for C2: starting from the idle startup controller toward
viewpoint 1 with duration 2000 at time 0, evaluated again at time 2500. -/
theorem tick_hits_endpoints_witness :
    tickPose (animateToViewpoint initState.trans (getViewpoint 0).pose
      (getViewpoint 1).pose.position (getViewpoint 1).pose.lookAt 2000 0) 0
      = (getViewpoint 0).pose ∧
    tickPose (animateToViewpoint initState.trans (getViewpoint 0).pose
      (getViewpoint 1).pose.position (getViewpoint 1).pose.lookAt 2000 0) 2500
      = Pose.mk (getViewpoint 1).pose.position (getViewpoint 1).pose.lookAt ∧
    (tickState (animateToViewpoint initState.trans (getViewpoint 0).pose
      (getViewpoint 1).pose.position (getViewpoint 1).pose.lookAt 2000 0) 2500).isAnimating
      = false :=
  tick_hits_endpoints initState.trans rfl (getViewpoint 0).pose
    (getViewpoint 1).pose.position (getViewpoint 1).pose.lookAt
    2000 0 2500 (by norm_num) (by norm_num)

/-- Claim C3: an accepted scroll-intent updates `currentViewpoint` immediately
via the modular next computation, even when the transition start is rejected
by single-flight: two Next fires 500ms apart (duration 2000ms) advance the
index twice while the controller state is exactly the one armed by the first
fire — still targeting the first new viewpoint, start time 0 — and a frame at
any time before 2000 keeps that first transition active. -/
theorem index_advances_despite_single_flight (sys : NavState)
    (h0 : sys.trans.isAnimating = false) (d1 d2 : ℚ) (hd1 : 0 < d1) (hd2 : 0 < d2)
    (now : ℚ) (hnow : now < 2000) :
    (handleWheelFire sys d1 0).currentViewpoint = nextIndex sys.currentViewpoint ∧
    (handleWheelFire (handleWheelFire sys d1 0) d2 500).currentViewpoint
      = nextIndex (nextIndex sys.currentViewpoint) ∧
    (handleWheelFire (handleWheelFire sys d1 0) d2 500).trans
      = (handleWheelFire sys d1 0).trans ∧
    (handleWheelFire sys d1 0).trans.targetPose
      = (getViewpoint (nextIndex sys.currentViewpoint)).pose ∧
    (handleWheelFire sys d1 0).trans.startTime = 0 ∧
    (frameTick (handleWheelFire (handleWheelFire sys d1 0) d2 500) now).trans.isAnimating
      = true := by
  have h1 : handleWheelFire sys d1 0
      = { currentViewpoint := nextIndex sys.currentViewpoint
        , cameraPose := sys.cameraPose
        , trans := TransitionState.mk true true sys.cameraPose
            (getViewpoint (nextIndex sys.currentViewpoint)).pose 0 defaultDuration } := by
    cases hp : getViewpoint (nextIndex sys.currentViewpoint)
    simp_all [handleWheelFire, animateToViewpoint, wheelNextIndex, hd1, nextIndex]
  have h2 : handleWheelFire (handleWheelFire sys d1 0) d2 500
      = { currentViewpoint := nextIndex (nextIndex sys.currentViewpoint)
        , cameraPose := sys.cameraPose
        , trans := (handleWheelFire sys d1 0).trans } := by
    rw [h1]
    simp [handleWheelFire, animateToViewpoint, wheelNextIndex, hd2, nextIndex, h1]
  have hprog : now / defaultDuration < 1 := by
    rw [div_lt_one (by norm_num [defaultDuration])]
    simpa [defaultDuration] using hnow
  refine ⟨by rw [h1], by rw [h2], by rw [h2], by rw [h1], by rw [h1], ?_⟩
  rw [h2, h1]
  simp [frameTick, tickState, hprog]

/-- Witness for C3 from the startup state with unit deltas, checked at frame
time 1500. -/
theorem index_advances_despite_single_flight_witness :
    (handleWheelFire initState 1 0).currentViewpoint = nextIndex initState.currentViewpoint ∧
    (handleWheelFire (handleWheelFire initState 1 0) 1 500).currentViewpoint
      = nextIndex (nextIndex initState.currentViewpoint) ∧
    (handleWheelFire (handleWheelFire initState 1 0) 1 500).trans
      = (handleWheelFire initState 1 0).trans ∧
    (handleWheelFire initState 1 0).trans.targetPose
      = (getViewpoint (nextIndex initState.currentViewpoint)).pose ∧
    (handleWheelFire initState 1 0).trans.startTime = 0 ∧
    (frameTick (handleWheelFire (handleWheelFire initState 1 0) 1 500) 1500).trans.isAnimating
      = true :=
  index_advances_despite_single_flight initState rfl 1 1 (by norm_num) (by norm_num)
    1500 (by norm_num)

/-- Counterexample to claim C4: a wheel event with `deltaY = 0` is not
ignored. From the startup state (index 0) the debounced handler moves the
index to 5, and the debouncer does emit an intent (a Prev one) when its timer
elapses. -/
theorem zero_delta_counterexample :
    (handleWheelFire initState 0 0).currentViewpoint = 5 ∧
    initState.currentViewpoint = 0 ∧
    debounceIntents 100 [WheelEvent.mk 0 0] = [(100, Dir.prev)] := by
  refine ⟨by decide, by decide, by norm_num [debounceIntents, debounceRun, dirOfDelta]⟩

/-- Claim C4 as amended: a wheel event whose delta is exactly 0 falls into the
handler's else branch, so it is treated like a negative delta: the debouncer
still emits an intent when its timer elapses, a Prev one, and the index moves
to `(i - 1 + length) % length`. -/
theorem zero_delta_treated_as_prev (sys : NavState) (now t : ℚ) :
    (handleWheelFire sys 0 now).currentViewpoint = prevIndex sys.currentViewpoint ∧
    debounceIntents 100 [WheelEvent.mk t 0] = [(t + 100, Dir.prev)] := by
  constructor
  · norm_num [handleWheelFire, wheelNextIndex, prevIndex]
  · norm_num [debounceIntents, debounceRun, dirOfDelta]

/-- Claim C5: the ease-in-out cubic is monotone non-decreasing on `[0, 1]` and
satisfies e(0) = 0, e(1) = 1 and e(1/2) = 1/2. -/
theorem ease_monotone_and_values (s t : ℚ) (hs : 0 ≤ s) (hst : s ≤ t) (ht : t ≤ 1) :
    easeInOut s ≤ easeInOut t ∧
    easeInOut 0 = 0 ∧ easeInOut 1 = 1 ∧ easeInOut (1 / 2) = 1 / 2 := by
  refine ⟨?_, easeInOut_zero, easeInOut_one, easeInOut_half⟩
  unfold easeInOut
  by_cases hs2 : s < 1 / 2 <;> by_cases ht2 : t < 1 / 2
  · rw [if_pos hs2, if_pos ht2]
    nlinarith
  · rw [if_pos hs2, if_neg ht2]
    push_neg at ht2
    nlinarith [sq_nonneg (-2 * t + 2), sq_nonneg s, sq_nonneg (2 * t - 1)]
  · push_neg at hs2
    exact absurd hst (not_le.mpr (lt_of_lt_of_le ht2 hs2))
  · rw [if_neg hs2, if_neg ht2]
    push_neg at hs2 ht2
    nlinarith [sq_nonneg ((-2 * s + 2) + (-2 * t + 2)),
      sq_nonneg ((-2 * s + 2) - (-2 * t + 2))]

/-- Witness for C5 at s = 1/4, t = 3/4. -/
theorem ease_monotone_and_values_witness :
    easeInOut (1 / 4) ≤ easeInOut (3 / 4) ∧
    easeInOut 0 = 0 ∧ easeInOut 1 = 1 ∧ easeInOut (1 / 2) = 1 / 2 :=
  ease_monotone_and_values (1 / 4) (3 / 4) (by norm_num) (by norm_num) (by norm_num)

/-- A pending debounce timer armed by the head of a burst is always superseded
by the following events of the burst, so the run emits exactly the timer of
the last event. -/
theorem debounceRun_burst (d : ℚ) (a : WheelEvent) (evs : List WheelEvent)
    (hb : withinDebounce d (a :: evs) = true) :
    debounceRun d (some (a.time + d, a.deltaY)) evs
      = [((lastEvent a evs).time + d, (lastEvent a evs).deltaY)] := by
  induction evs generalizing a with
  | nil => simp [debounceRun, lastEvent]
  | cons b rest ih =>
    simp only [withinDebounce, Bool.and_eq_true, decide_eq_true_eq] at hb
    simp only [debounceRun, lastEvent]
    rw [if_neg (not_le.mpr (by simpa using hb.1))]
    exact ih b hb.2

/-- Claim C6: a burst of wheel events each arriving strictly within 100ms of
the previous one produces exactly one navigation intent, emitted 100ms after
the last event of the burst (i.e. only once 100ms pass with no further event),
and its direction is Next if the last event's delta is positive, Prev if it is
negative. -/
theorem debounce_emits_single_intent (a : WheelEvent) (evs : List WheelEvent)
    (hb : withinDebounce 100 (a :: evs) = true)
    (hlast : (lastEvent a evs).deltaY ≠ 0) :
    debounceIntents 100 (a :: evs)
      = [((lastEvent a evs).time + 100,
          if 0 < (lastEvent a evs).deltaY then Dir.next else Dir.prev)] := by
  unfold debounceIntents
  simp only [debounceRun]
  rw [debounceRun_burst 100 a evs hb]
  simp [dirOfDelta]

/-- Witness for C6: events at t = 0, 30, 60 with deltas 5, -3, 2 emit exactly
one intent, at t = 160, in the direction of the last event (Next). -/
theorem debounce_emits_single_intent_witness :
    debounceIntents 100 [WheelEvent.mk 0 5, WheelEvent.mk 30 (-3), WheelEvent.mk 60 2]
      = [(160, Dir.next)] := by
  have h := debounce_emits_single_intent (WheelEvent.mk 0 5)
      [WheelEvent.mk 30 (-3), WheelEvent.mk 60 2]
      (by norm_num [withinDebounce]) (by norm_num [lastEvent])
  rw [h]
  norm_num [lastEvent]

/-- Claim C7: on the 6-entry catalog, the wheel handler's modular successor
inverts its modular predecessor: next(prev(i)) = i for every index in range. -/
theorem next_prev_inverse (i : ℤ) (h0 : 0 ≤ i) (hlen : i < catalogLength) :
    nextIndex (prevIndex i) = i := by
  have hc : catalogLength = 6 := rfl
  rw [hc] at hlen
  interval_cases i <;> decide

/-- Witness for C7 at i = 3. -/
theorem next_prev_inverse_witness : nextIndex (prevIndex 3) = 3 :=
  next_prev_inverse 3 (by decide) (by decide)

/-- An accepted advance whose transition then completes: the index moves to
the modular successor and the controller is idle again afterwards. -/
theorem advanceAndComplete_idle (sys : NavState) (h0 : sys.trans.isAnimating = false)
    (t : ℚ) :
    (advanceAndComplete sys t).currentViewpoint = nextIndex sys.currentViewpoint ∧
    (advanceAndComplete sys t).trans.isAnimating = false := by
  have h1 : handleWheelFire sys 1 t
      = { currentViewpoint := nextIndex sys.currentViewpoint
        , cameraPose := sys.cameraPose
        , trans := TransitionState.mk true true sys.cameraPose
            (getViewpoint (nextIndex sys.currentViewpoint)).pose t defaultDuration } := by
    cases hp : getViewpoint (nextIndex sys.currentViewpoint)
    simp_all [handleWheelFire, animateToViewpoint, wheelNextIndex, nextIndex]
  unfold advanceAndComplete
  rw [h1]
  norm_num [frameTick, tickState, defaultDuration]

/-- Claim C8: every advance or retreat of the wheel handler keeps the index in
`[0, catalogLength)`; and from the startup state, five Next advances each
followed by a completed transition end at index 5 with the controller idle,
and one further Next wraps the index to 0. -/
theorem index_range_and_wraparound (i : ℤ) (deltaY : ℚ)
    (h0 : 0 ≤ i) (hlen : i < catalogLength) :
    (0 ≤ wheelNextIndex deltaY i ∧ wheelNextIndex deltaY i < catalogLength) ∧
    fiveAdvances.currentViewpoint = 5 ∧
    fiveAdvances.trans.isAnimating = false ∧
    (handleWheelFire fiveAdvances 1 10000).currentViewpoint = 0 := by
  have h1 := advanceAndComplete_idle initState rfl 0
  have h2 := advanceAndComplete_idle _ h1.2 2000
  have h3 := advanceAndComplete_idle _ h2.2 4000
  have h4 := advanceAndComplete_idle _ h3.2 6000
  have h5 := advanceAndComplete_idle _ h4.2 8000
  have hidx : fiveAdvances.currentViewpoint = 5 := by
    show (advanceAndComplete _ 8000).currentViewpoint = 5
    rw [h5.1, h4.1, h3.1, h2.1, h1.1]
    decide
  refine ⟨?_, hidx, h5.2, ?_⟩
  · have hc : catalogLength = 6 := rfl
    rw [hc] at hlen
    by_cases hd : deltaY > 0 <;> simp only [wheelNextIndex, hd, if_true, if_false] <;>
      interval_cases i <;> decide
  · have : (handleWheelFire fiveAdvances 1 10000).currentViewpoint
        = wheelNextIndex 1 fiveAdvances.currentViewpoint := rfl
    rw [this, hidx]
    decide

/-- Witness for C8 at i = 2 with a negative delta. -/
theorem index_range_and_wraparound_witness :
    ((0 ≤ wheelNextIndex (-1) 2 ∧ wheelNextIndex (-1) 2 < catalogLength) ∧
     fiveAdvances.currentViewpoint = 5 ∧
     fiveAdvances.trans.isAnimating = false ∧
     (handleWheelFire fiveAdvances 1 10000).currentViewpoint = 0) :=
  index_range_and_wraparound 2 (-1) (by decide) (by decide)

/-- Claim C9: a custom-pose request issued while idle arms the controller:
it becomes active with target pose equal to the requested pose and the default
2000ms duration, and `currentViewpoint` is left unchanged. -/
theorem custom_pose_request (sys : NavState) (h0 : sys.trans.isAnimating = false)
    (pos look : Vec3) (now : ℚ) :
    (setCustomViewpoint sys pos look now).trans.isAnimating = true ∧
    (setCustomViewpoint sys pos look now).trans.targetPose = Pose.mk pos look ∧
    (setCustomViewpoint sys pos look now).trans.duration = 2000 ∧
    (setCustomViewpoint sys pos look now).currentViewpoint = sys.currentViewpoint := by
  simp [setCustomViewpoint, animateToViewpoint, h0, defaultDuration]

/-- Witness for C9: the spec scenario pose (1,2,3) looking at the origin,
requested from the idle startup state. -/
theorem custom_pose_request_witness :
    (setCustomViewpoint initState (Vec3.mk 1 2 3) (Vec3.mk 0 0 0) 0).trans.isAnimating = true ∧
    (setCustomViewpoint initState (Vec3.mk 1 2 3) (Vec3.mk 0 0 0) 0).trans.targetPose
      = Pose.mk (Vec3.mk 1 2 3) (Vec3.mk 0 0 0) ∧
    (setCustomViewpoint initState (Vec3.mk 1 2 3) (Vec3.mk 0 0 0) 0).trans.duration = 2000 ∧
    (setCustomViewpoint initState (Vec3.mk 1 2 3) (Vec3.mk 0 0 0) 0).currentViewpoint
      = initState.currentViewpoint :=
  custom_pose_request initState rfl (Vec3.mk 1 2 3) (Vec3.mk 0 0 0) 0

/-- Claim C10: at startup the index is 0, the camera position and look-at
target equal catalog entry 0's position and lookAt (set directly, with the
concrete coordinates of the City Overview entry), and no transition is
active before the first input. -/
theorem startup_state :
    initState.currentViewpoint = 0 ∧
    initState.trans.isAnimating = false ∧
    initState.cameraPose = (getViewpoint 0).pose ∧
    initState.cameraPose.position = Vec3.mk 52 (-7) 5 ∧
    initState.cameraPose.lookAt = Vec3.mk 43 (-3) 16 := by
  refine ⟨rfl, rfl, rfl, by decide, by decide⟩
